import Mathlib

/-!
Verification of the capability-gate functions and the `FFXSystemInterface`
base class of `FXSystem.h` (the interface to the effects system), via a
shallow embedding in Lean 4.

The embedding follows the header source:
  * `SupportsGPUParticles(EShaderPlatform)` — static platform gate;
  * `RHISupportsGPUParticles()` — runtime device-capability gate reading
    the `FXConsoleVariables::bAllowGPUParticles` console switch and the
    global RHI capability flags;
  * the `FFXSystemInterface` base class with its `bIsPendingKill` field
    and the non-abstract member functions `OnDestroy`,
    `DestroyGPUSimulation`, `GetInterface` and `IsPendingKill`.
-/

namespace FXSystem

/-- A shader platform, abstracted to the two capability queries that
`SupportsGPUParticles` consults: `IsFeatureLevelSupported(Platform,
ERHIFeatureLevel::ES3_1)` and `IsPCPlatform(Platform)`.  Both are
external static capability predicates of the platform (declared in
`RenderUtils.h` / RHI headers, outside this repository), so they are
modelled as opaque boolean attributes of the platform value. -/
structure EShaderPlatform where
  featureLevelES3_1Supported : Bool
  pcPlatform : Bool
deriving DecidableEq, Repr

/-- `IsFeatureLevelSupported(Platform, ERHIFeatureLevel::ES3_1)`:
whether the platform supports at least feature level ES3_1. -/
def IsFeatureLevelSupported (Platform : EShaderPlatform) : Bool :=
  Platform.featureLevelES3_1Supported

/-- `IsPCPlatform(Platform)`: whether the platform is a desktop-class
(PC) platform. -/
def IsPCPlatform (Platform : EShaderPlatform) : Bool :=
  Platform.pcPlatform

/-- The global state read by `RHISupportsGPUParticles()`:
`FXConsoleVariables::bAllowGPUParticles` (an `int32` console variable,
truthy when nonzero) and the global RHI capability flags. -/
structure RHIGlobals where
  bAllowGPUParticles : Int
  GSupportsMultipleRenderTargets : Bool
  GSupportsWideMRT : Bool
  PF_G32R32F_Supported : Bool
  GSupportsTexture3D : Bool
  GSupportsResourceView : Bool
deriving DecidableEq, Repr

/-- `SupportsGPUParticles(EShaderPlatform Platform)` from `FXSystem.h`:
`return IsFeatureLevelSupported(Platform, ERHIFeatureLevel::ES3_1) ||
IsPCPlatform(Platform);` -/
def SupportsGPUParticles (Platform : EShaderPlatform) : Bool :=
  IsFeatureLevelSupported Platform || IsPCPlatform Platform

/-- `RHISupportsGPUParticles()` from `FXSystem.h`:
`return FXConsoleVariables::bAllowGPUParticles &&
GSupportsMultipleRenderTargets && GSupportsWideMRT &&
GPixelFormats[PF_G32R32F].Supported && GSupportsTexture3D &&
GSupportsResourceView;` — the `int32` console variable is converted to
`bool` by the C++ nonzero test. -/
def RHISupportsGPUParticles (g : RHIGlobals) : Bool :=
  decide (g.bAllowGPUParticles ≠ 0)
    && g.GSupportsMultipleRenderTargets
    && g.GSupportsWideMRT
    && g.PF_G32R32F_Supported
    && g.GSupportsTexture3D
    && g.GSupportsResourceView

/-- A call to `SupportsGPUParticles` embedded as a state transformer over
the global RHI state: the body is a single `return` of a pure expression
over the argument, so the call yields its result and the unchanged
globals. -/
def SupportsGPUParticlesRun (Platform : EShaderPlatform) (g : RHIGlobals) :
    Bool × RHIGlobals :=
  (SupportsGPUParticles Platform, g)

/-- A call to `RHISupportsGPUParticles` embedded as a state transformer
over the global RHI state: the body is a single `return` of a pure
expression reading the globals, so the call yields its result and the
unchanged globals. -/
def RHISupportsGPUParticlesRun (g : RHIGlobals) : Bool × RHIGlobals :=
  (RHISupportsGPUParticles g, g)

/-- `FName`, the engine's interned-name type, modelled as a string. -/
def FName := String

/-- The state of an `FFXSystemInterface` base-class instance: the single
private data member `bool bIsPendingKill = false;`. -/
structure FFXSystemInterface where
  bIsPendingKill : Bool
deriving DecidableEq, Repr

/-- Construction of an `FFXSystemInterface`: the in-class initializer
`bool bIsPendingKill = false;` is the only member initialization. -/
def FFXSystemInterface.construct : FFXSystemInterface :=
  { bIsPendingKill := false }

/-- `IsPendingKill() const { return bIsPendingKill; }` -/
def FFXSystemInterface.IsPendingKill (s : FFXSystemInterface) : Bool :=
  s.bIsPendingKill

/-- `virtual void OnDestroy() { bIsPendingKill = true; }` — the default
(base-class) implementation. -/
def FFXSystemInterface.OnDestroy (s : FFXSystemInterface) : FFXSystemInterface :=
  { s with bIsPendingKill := true }

/-- `virtual void DestroyGPUSimulation() { }` — the default (base-class)
implementation: an empty body. -/
def FFXSystemInterface.DestroyGPUSimulation (s : FFXSystemInterface) :
    FFXSystemInterface :=
  s

/-- `virtual FFXSystemInterface* GetInterface(const FName& InName)
{ return nullptr; }` — the default (base-class) implementation.  The
returned pointer is modelled as an `Option` of an abstract reference
(`none` is `nullptr`); the call also returns the (unchanged) instance
state. -/
def FFXSystemInterface.GetInterface (s : FFXSystemInterface) (_InName : FName) :
    Option Nat × FFXSystemInterface :=
  (none, s)

/-- The non-abstract operations of the `FFXSystemInterface` base class
that can act on an instance, as an operation alphabet for lifetime
reasoning. -/
inductive FXOp where
  | onDestroy : FXOp
  | destroyGPUSimulation : FXOp
  | getInterface : FName → FXOp
  | isPendingKill : FXOp

/-- The effect of one base-class operation on the instance state. -/
def FXOp.step (s : FFXSystemInterface) : FXOp → FFXSystemInterface
  | FXOp.onDestroy => s.OnDestroy
  | FXOp.destroyGPUSimulation => s.DestroyGPUSimulation
  | FXOp.getInterface InName => (s.GetInterface InName).2
  | FXOp.isPendingKill => s

/-- Running a sequence of base-class operations on an instance. -/
def runOps (s : FFXSystemInterface) : List FXOp → FFXSystemInterface
  | [] => s
  | op :: ops => runOps (FXOp.step s op) ops

/-- An abstract concrete effects-system implementation, for modelling the
result of `FFXSystemInterface::Create`. -/
inductive FXImpl where
  | custom : Nat → FXImpl
  | builtin : FXImpl
  | disabledNoOp : FXImpl
deriving DecidableEq, Repr

/-- A registered custom factory delegate
(`FCreateCustomFXSystemDelegate`): given a feature level and shader
platform it may produce an implementation (a delegate returning a null
pointer is `none`). -/
def FCreateCustomFXSystemDelegate :=
  Nat → EShaderPlatform → Option FXImpl

/-- Modelled from the spec: the body of `FFXSystemInterface::Create` is
not under `src/` (the header only declares it at `FXSystem.h` line 129).
Per the spec it "selects, by feature level/platform and optionally by a
registered custom factory, which concrete implementation to build; fails
by returning a disabled/no-op instance if the platform cannot support
any implementation (never null, to keep call sites unconditional)": if
some registered custom delegate produces an implementation, return it;
otherwise return the built-in implementation when the platform gate
passes, and the disabled/no-op implementation when it does not. -/
def FFXSystemInterface.Create
    (delegates : List (FName × FCreateCustomFXSystemDelegate))
    (InFeatureLevel : Nat) (InShaderPlatform : EShaderPlatform) :
    Option FXImpl :=
  match delegates.findSome? (fun d => d.2 InFeatureLevel InShaderPlatform) with
  | some impl => some impl
  | none =>
      if SupportsGPUParticles InShaderPlatform then
        some FXImpl.builtin
      else
        some FXImpl.disabledNoOp

end FXSystem

namespace FXSystem

/-- Running a sequence of base-class operations never clears the
pending-kill flag once it is set: every operation of the alphabet either
sets it to `true` or leaves the state untouched. -/
theorem runOps_pendingKill_preserved (ops : List FXOp) :
    ∀ s : FFXSystemInterface, s.bIsPendingKill = true →
      (runOps s ops).bIsPendingKill = true := by
  induction ops with
  | nil => intro s h; exact h
  | cons op ops ih =>
      intro s h
      cases op with
      | onDestroy => exact ih _ rfl
      | destroyGPUSimulation => exact ih _ h
      | getInterface InName => exact ih _ h
      | isPendingKill => exact ih _ h

/-- C1: `RHISupportsGPUParticles()` returns true exactly when the
`FXConsoleVariables::bAllowGPUParticles` switch is on (nonzero) and
multiple-render-target support, wide-MRT support, support for the pixel
format `PF_G32R32F`, 3-D texture support and resource-view support all
hold. -/
theorem rhiSupportsGPUParticles_iff (g : RHIGlobals) :
    RHISupportsGPUParticles g = true ↔
      (g.bAllowGPUParticles ≠ 0 ∧
        g.GSupportsMultipleRenderTargets = true ∧
        g.GSupportsWideMRT = true ∧
        g.PF_G32R32F_Supported = true ∧
        g.GSupportsTexture3D = true ∧
        g.GSupportsResourceView = true) := by
  simp [RHISupportsGPUParticles, Bool.and_eq_true, decide_eq_true_iff,
    and_assoc]

/-- C2: whenever `FXConsoleVariables::bAllowGPUParticles` is false
(zero, since it is an `int32`), `RHISupportsGPUParticles()` returns
false regardless of the other capability flags. -/
theorem rhiSupportsGPUParticles_false_of_disallowed (g : RHIGlobals)
    (h : g.bAllowGPUParticles = 0) : RHISupportsGPUParticles g = false := by
  simp [RHISupportsGPUParticles, h]

/-- Witness for C2 at a concrete global state with every capability flag
set but the switch off. -/
theorem rhiSupportsGPUParticles_false_of_disallowed_witness :
    RHISupportsGPUParticles
      { bAllowGPUParticles := 0,
        GSupportsMultipleRenderTargets := true,
        GSupportsWideMRT := true,
        PF_G32R32F_Supported := true,
        GSupportsTexture3D := true,
        GSupportsResourceView := true } = false :=
  rhiSupportsGPUParticles_false_of_disallowed
    { bAllowGPUParticles := 0,
      GSupportsMultipleRenderTargets := true,
      GSupportsWideMRT := true,
      PF_G32R32F_Supported := true,
      GSupportsTexture3D := true,
      GSupportsResourceView := true } rfl

/-- C3: `SupportsGPUParticles(platform)` returns true if and only if the
platform supports at least feature level ES3_1 or is a desktop-class
(PC) platform; by its signature it reads no other input. -/
theorem supportsGPUParticles_iff (Platform : EShaderPlatform) :
    SupportsGPUParticles Platform = true ↔
      (IsFeatureLevelSupported Platform = true ∨
        IsPCPlatform Platform = true) := by
  simp [SupportsGPUParticles, Bool.or_eq_true]

/-- C4: when 3-D texture support is absent but the platform is
desktop-class (PC), `SupportsGPUParticles` still returns true (the
desktop disjunct overrides the feature-level gate) while
`RHISupportsGPUParticles` returns false (the runtime check requires 3-D
texture support and has no desktop override). -/
theorem desktop_overrides_static_but_not_runtime
    (Platform : EShaderPlatform) (g : RHIGlobals)
    (hTex : g.GSupportsTexture3D = false)
    (hPC : IsPCPlatform Platform = true) :
    SupportsGPUParticles Platform = true ∧
      RHISupportsGPUParticles g = false := by
  constructor
  · simp [SupportsGPUParticles, hPC]
  · simp [RHISupportsGPUParticles, hTex]

/-- Witness for C4 at a concrete PC platform lacking ES3_1 support and a
concrete global state lacking only 3-D texture support. -/
theorem desktop_overrides_static_but_not_runtime_witness :
    SupportsGPUParticles
      { featureLevelES3_1Supported := false,
        pcPlatform := true } = true ∧
    RHISupportsGPUParticles
      { bAllowGPUParticles := 1,
        GSupportsMultipleRenderTargets := true,
        GSupportsWideMRT := true,
        PF_G32R32F_Supported := true,
        GSupportsTexture3D := false,
        GSupportsResourceView := true } = false :=
  desktop_overrides_static_but_not_runtime
    { featureLevelES3_1Supported := false, pcPlatform := true }
    { bAllowGPUParticles := 1,
      GSupportsMultipleRenderTargets := true,
      GSupportsWideMRT := true,
      PF_G32R32F_Supported := true,
      GSupportsTexture3D := false,
      GSupportsResourceView := true }
    rfl rfl

/-- C5: `IsPendingKill()` is false at construction, becomes true after
`OnDestroy()`, and never reverts: once the flag is true, no sequence of
base-class operations makes it false again, so it transitions
false→true at most once over the instance's lifetime. -/
theorem pendingKill_lifecycle :
    FFXSystemInterface.construct.IsPendingKill = false ∧
    (∀ s : FFXSystemInterface, s.OnDestroy.IsPendingKill = true) ∧
    (∀ (s : FFXSystemInterface) (ops : List FXOp),
      s.IsPendingKill = true → (runOps s ops).IsPendingKill = true) := by
  refine ⟨rfl, fun s => rfl, fun s ops h => ?_⟩
  exact runOps_pendingKill_preserved ops s h

/-- Witness for C5: a destroyed instance stays pending-kill across a
concrete sequence of further base-class operations. -/
theorem pendingKill_lifecycle_witness :
    FFXSystemInterface.IsPendingKill
      (runOps { bIsPendingKill := true }
        [FXOp.destroyGPUSimulation, FXOp.getInterface "Niagara",
          FXOp.isPendingKill, FXOp.onDestroy]) = true :=
  pendingKill_lifecycle.2.2 { bIsPendingKill := true }
    [FXOp.destroyGPUSimulation, FXOp.getInterface "Niagara",
      FXOp.isPendingKill, FXOp.onDestroy] rfl

/-- C6: the default (base-class) `GetInterface(name)` returns `nullptr`
for every name and leaves the instance state unchanged. -/
theorem getInterface_default_not_found (s : FFXSystemInterface)
    (InName : FName) :
    (s.GetInterface InName).1 = none ∧ (s.GetInterface InName).2 = s :=
  ⟨rfl, rfl⟩

/-- C7: `FFXSystemInterface::Create` never returns null: whether or not
a registered custom delegate produces an implementation, and whether or
not the platform passes the gate, every branch yields an instance (the
disabled/no-op one in the unsupported case). -/
theorem create_never_null
    (delegates : List (FName × FCreateCustomFXSystemDelegate))
    (InFeatureLevel : Nat) (InShaderPlatform : EShaderPlatform) :
    (FFXSystemInterface.Create delegates InFeatureLevel
      InShaderPlatform).isSome = true := by
  unfold FFXSystemInterface.Create
  split
  · rfl
  · split <;> rfl

/-- C8: the default (base-class) `DestroyGPUSimulation()` is a no-op:
the instance state, including the pending-kill flag, is unchanged. -/
theorem destroyGPUSimulation_noop (s : FFXSystemInterface) :
    s.DestroyGPUSimulation = s :=
  rfl

/-- C9: `SupportsGPUParticles` and `RHISupportsGPUParticles` are
side-effect-free and deterministic: each call leaves the global state
unchanged, and a repeated call with the same argument against the state
left by the other call returns the same result. -/
theorem capability_gates_pure (Platform : EShaderPlatform)
    (g : RHIGlobals) :
    (SupportsGPUParticlesRun Platform g).2 = g ∧
    (RHISupportsGPUParticlesRun g).2 = g ∧
    (SupportsGPUParticlesRun Platform
      ((RHISupportsGPUParticlesRun g).2)).1 =
      (SupportsGPUParticlesRun Platform g).1 ∧
    (RHISupportsGPUParticlesRun
      ((SupportsGPUParticlesRun Platform g).2)).1 =
      (RHISupportsGPUParticlesRun g).1 :=
  ⟨rfl, rfl, rfl, rfl⟩

/-- C10: the base-class `OnDestroy()` is idempotent: a second call
leaves the instance in exactly the state the first call produced. -/
theorem onDestroy_idempotent (s : FFXSystemInterface) :
    s.OnDestroy.OnDestroy = s.OnDestroy :=
  rfl

end FXSystem
